import Mathlib

/-!
Verification of the `ResearchForm` component
(`src/src/components/ResearchForm.tsx`).

The component is a client-side form with a zod validation schema
(`formSchema`), two file-input change handlers (`handleImageChange`,
`handleFileChange`), a submit pipeline (`handleFormSubmit` wrapped by
react-hook-form's `handleSubmit`), and an explicit clear button.

We embed the component shallowly: the draft (`FormData`), the error map,
the derived UI state (`imagePreview`, `fileName`, `isSubmitting`) and the
observable side effects (console log, toast notifications, consumer
callback invocations) are explicit data; event handlers are pure
functions from state to state paired with the list of effects they emit.
-/

/-- A DOM `File` as far as the component observes it: a display name and
opaque contents (only the name is ever read synchronously; the contents
feed the asynchronous `FileReader`). -/
structure DomFile where
  name : String
  content : String
deriving DecidableEq, Repr

/-- A DOM `FileList`: the (possibly empty) list of files delivered by a
file input's change event. -/
abbrev DomFileList := List DomFile

/-- The draft record, `type FormData = z.infer<typeof formSchema>`:
three text fields plus two optional file fields. In the component the
file fields can only ever hold an actual `FileList` or be absent. -/
structure FormData where
  title : String
  abstract : String
  researcher : String
  image : Option DomFileList
  researchFile : Option DomFileList
deriving DecidableEq, Repr

/-- The per-field error map produced by validation: at most one
human-readable message per field (react-hook-form with `zodResolver`
keeps the first error of each field, and each field of `formSchema` has
a single check). -/
structure FieldErrors where
  title : Option String
  abstract : Option String
  researcher : Option String
  image : Option String
  researchFile : Option String
deriving DecidableEq, Repr

/-- The empty error map. -/
def noErrors : FieldErrors := ⟨none, none, none, none, none⟩

/-- Error message of `z.string().min(1, ...)` on `title` (Thai: "please
enter the project title"). -/
def titleMsg : String := "กรุณาใส่ชื่อโครงการ"

/-- Error message of `z.string().min(10, ...)` on `abstract` (Thai: "the
abstract must be at least 10 characters"). -/
def abstractMsg : String := "บทคัดย่อต้องมีอย่างน้อย 10 ตัวอักษร"

/-- Error message of `z.string().min(1, ...)` on `researcher` (Thai:
"please enter the researcher's name"). -/
def researcherMsg : String := "กรุณาใส่ชื่อนักวิจัย"

/-- The check `z.instanceof(FileList).optional()` applied to a file
field. In the component's `FormData` type the field is `FileList` or
absent, so the check succeeds on every value the field can hold and
never yields an error message. -/
def instanceOfFileListOptional (v : Option DomFileList) : Option String :=
  match v with
  | none => none
  | some _ => none

/-- The zod `formSchema` (lines 13-19 of the source) as a function from
a draft to its error map: `title` needs length ≥ 1, `abstract` length
≥ 10, `researcher` length ≥ 1; the two file fields are optional
`instanceof FileList` checks. -/
def formSchemaValidate (d : FormData) : FieldErrors :=
  ⟨ if 1 ≤ d.title.length then none else some titleMsg,
    if 10 ≤ d.abstract.length then none else some abstractMsg,
    if 1 ≤ d.researcher.length then none else some researcherMsg,
    instanceOfFileListOptional d.image,
    instanceOfFileListOptional d.researchFile ⟩

/-- An error map is valid (validation passed) when no field carries a
message. -/
def FieldErrors.isValid (e : FieldErrors) : Bool :=
  e.title.isNone && e.abstract.isNone && e.researcher.isNone
    && e.image.isNone && e.researchFile.isNone

/-- A toast message as passed to the `toast` collaborator: title,
description, and an optional variant (`"destructive"` on failure). -/
structure Toast where
  title : String
  description : String
  variant : Option String
deriving DecidableEq, Repr

/-- The success toast of `handleFormSubmit` (Thai: "data saved
successfully" / "the research project data has been saved"). -/
def successToast : Toast :=
  ⟨"บันทึกข้อมูลสำเร็จ", "ข้อมูลโครงการวิจัยได้ถูกบันทึกแล้ว", none⟩

/-- The failure toast of the `catch` branch of `handleFormSubmit`
(Thai: "an error occurred" / "could not save the data, please try
again"), with `variant: "destructive"`. -/
def failureToast : Toast :=
  ⟨"เกิดข้อผิดพลาด", "ไม่สามารถบันทึกข้อมูลได้ กรุณาลองใหม่อีกครั้ง", some "destructive"⟩

/-- An observable side effect of the component, in emission order: a
`console.log` of the submitted draft, a toast notification, or an
invocation of the consumer callback with the submitted draft. -/
inductive Effect where
  | log (data : FormData)
  | toast (t : Toast)
  | callback (data : FormData)
deriving DecidableEq, Repr

/-- The optional consumer callback `onSubmit?: (data: FormData) => void`
supplied at construction. Its behaviour on a draft either returns
normally (`Except.ok`) or throws (`Except.error`). -/
structure Consumer where
  run : FormData → Except String Unit

/-- The component's mutable state: the draft held by the form
controller, the error map, the `isSubmitting` flag, and the two derived
UI values `imagePreview` and `fileName`. -/
structure ComponentState where
  draft : FormData
  errors : FieldErrors
  isSubmitting : Bool
  imagePreview : Option String
  fileName : Option String
deriving Repr

/-- The empty draft that `reset()` restores (no `defaultValues` were
supplied to `useForm`, so text fields reset to empty and file fields to
absent). -/
def emptyDraft : FormData := ⟨"", "", "", none, none⟩

/-- Effect of `reset(); setImagePreview(null); setFileName(null)` on the
state: draft, error map, preview and file name all return to empty. -/
def resetAllState (s : ComponentState) : ComponentState :=
  { s with draft := emptyDraft, errors := noErrors,
           imagePreview := none, fileName := none }

/-- The submit handler (source lines 62-86). Inside `try`: log the data,
fire the success toast, invoke the consumer callback when supplied,
then reset the form and the derived state. If the callback throws, the
`catch` branch fires the failure toast and performs no reset. The
returned list is the sequence of effects in the order they are emitted. -/
def handleFormSubmit (onSubmit : Option Consumer) (data : FormData)
    (s : ComponentState) : ComponentState × List Effect :=
  match onSubmit with
  | none =>
      (resetAllState s, [Effect.log data, Effect.toast successToast])
  | some c =>
      match c.run data with
      | Except.ok _ =>
          (resetAllState s,
           [Effect.log data, Effect.toast successToast, Effect.callback data])
      | Except.error _ =>
          (s,
           [Effect.log data, Effect.toast successToast, Effect.callback data,
            Effect.toast failureToast])

/-- Modelled from the spec: the state react-hook-form's `handleSubmit`
establishes while the user handler runs — `isSubmitting` is true and,
validation having succeeded, the error map is empty. The `useForm`
machinery itself is library code outside this repository; spec §4.1
states the flag is "set true for the duration of the submit handler". -/
def runningState (s : ComponentState) : ComponentState :=
  { s with isSubmitting := true, errors := noErrors }

/-- Modelled from the spec: the submit trigger
`handleSubmit(handleFormSubmit)` together with the submit button's
`disabled={isSubmitting}` (source lines 106, 231-237). When a submission
is already in flight the trigger does nothing; otherwise the draft is
validated against `formSchema`: on failure the error map is published
and no effect is emitted, on success `handleFormSubmit` runs on the
`runningState` and the flag drops back to false afterwards. -/
def submitTrigger (onSubmit : Option Consumer) (s : ComponentState) :
    ComponentState × List Effect :=
  if s.isSubmitting then (s, [])
  else if (formSchemaValidate s.draft).isValid then
    let result := handleFormSubmit onSubmit s.draft (runningState s)
    ({ result.1 with isSubmitting := false }, result.2)
  else
    ({ s with errors := formSchemaValidate s.draft }, [])

/-- The image input's change handler (source lines 42-52). The event
delivers `e.target.files`; the handler looks at `files?.[0]`: when a
file is present it hands the file to an asynchronous `FileReader`
(returned here as the pending read) and synchronously stores the whole
`FileList` in the draft's `image` field; otherwise nothing happens.
`imagePreview` is not touched synchronously. -/
def handleImageChange (files : Option DomFileList) (s : ComponentState) :
    ComponentState × Option DomFile :=
  match files.bind List.head? with
  | some f =>
      ({ s with draft := { s.draft with image := files } }, some f)
  | none => (s, none)

/-- Completion of the pending `FileReader` read: the `reader.onload`
callback stores the read result (`e.target?.result`, a data URL) as
`imagePreview`. -/
def completeImageRead (result : String) (s : ComponentState) :
    ComponentState :=
  { s with imagePreview := some result }

/-- The document input's change handler (source lines 54-60): when
`files?.[0]` is present it records the file's display name as
`fileName` and stores the `FileList` in the draft's `researchFile`
field; otherwise nothing happens. -/
def handleFileChange (files : Option DomFileList) (s : ComponentState) :
    ComponentState :=
  match files.bind List.head? with
  | some f =>
      { s with fileName := some f.name,
               draft := { s.draft with researchFile := files } }
  | none => s

/-- The clear button's `onClick` (source lines 241-245): `reset()`,
`setImagePreview(null)`, `setFileName(null)` — no validation runs and
no effect is emitted. -/
def handleClearClick (s : ComponentState) : ComponentState × List Effect :=
  (resetAllState s, [])

/-- The toasts fired within an effect sequence, in order. -/
def firedToasts (fx : List Effect) : List Toast :=
  fx.filterMap fun e =>
    match e with
    | Effect.toast t => some t
    | _ => none

/-- Number of consumer-callback invocations in an effect sequence. -/
def callbackCount (fx : List Effect) : Nat :=
  (fx.filterMap fun e =>
    match e with
    | Effect.callback d => some d
    | _ => none).length

/-- An idle component state holding a given draft: no errors recorded,
no submission in flight, no preview, no file name. -/
def idleState (d : FormData) : ComponentState :=
  ⟨d, noErrors, false, none, none⟩

/-- A concrete valid draft (the scenario of spec §8). -/
def validDraft0 : FormData :=
  ⟨"Solar Silk Reeling Machine",
   "A device that uses solar energy to power a silk-reeling mechanism.",
   "Somchai Srisuwan", none, none⟩

/-- A consumer callback that always throws. -/
def throwingConsumer : Consumer := ⟨fun _ => Except.error "boom"⟩

/-- A consumer callback that always returns normally. -/
def okConsumer : Consumer := ⟨fun _ => Except.ok ()⟩

/-! ## Helper lemmas -/

/-- A string other than `""` has length at least 1. -/
theorem one_le_length_of_ne_empty (t : String) (h : t ≠ "") :
    1 ≤ t.length := by
  cases t with
  | mk data =>
    cases data with
    | nil => exact absurd rfl h
    | cons c cs => simp [String.length]

/-- A string of length below 1 is `""`. -/
theorem eq_empty_of_length_lt_one (t : String) (h : t.length < 1) :
    t = "" := by
  by_contra hne
  exact absurd (one_le_length_of_ne_empty t hne) (by omega)

/-- The `min(1)` check yields its message exactly on the empty string. -/
theorem min_one_check_eq (t msg : String) :
    (if 1 ≤ t.length then (none : Option String) else some msg)
      = (if t = "" then some msg else none) := by
  by_cases h : t = ""
  · subst h
    simp
  · simp [one_le_length_of_ne_empty t h, h]

/-- The `min(10)` check yields its message exactly below length 10. -/
theorem min_ten_check_eq (n : Nat) (msg : String) :
    (if 10 ≤ n then (none : Option String) else some msg)
      = (if n < 10 then some msg else none) := by
  by_cases h : 10 ≤ n
  · rw [if_pos h, if_neg (by omega)]
  · rw [if_neg h, if_pos (by omega)]

/-! ## Claim theorems -/

/-- Claim C1: for every valid draft the submit handler emits, in order, a
diagnostic log of the draft, the success toast, and — when a consumer
callback was supplied — exactly one callback invocation with the exact
submitted values; afterwards the draft, the error map, `imagePreview`
and `fileName` are all reset to empty/absent. -/
theorem submit_valid_success_path (cb : Option Consumer) (s : ComponentState)
    (hns : s.isSubmitting = false)
    (hv : (formSchemaValidate s.draft).isValid = true)
    (hok : ∀ c, cb = some c → c.run s.draft = Except.ok ()) :
    (submitTrigger cb s).2
        = [Effect.log s.draft, Effect.toast successToast]
          ++ (match cb with
              | some _ => [Effect.callback s.draft]
              | none => []) ∧
    callbackCount (submitTrigger cb s).2
        = (match cb with | some _ => 1 | none => 0) ∧
    (submitTrigger cb s).1.draft = emptyDraft ∧
    (submitTrigger cb s).1.errors = noErrors ∧
    (submitTrigger cb s).1.imagePreview = none ∧
    (submitTrigger cb s).1.fileName = none := by
  cases cb with
  | none =>
      simp [submitTrigger, handleFormSubmit, hns, hv, runningState,
            resetAllState, callbackCount]
  | some c =>
      have hr : c.run s.draft = Except.ok () := hok c rfl
      simp [submitTrigger, handleFormSubmit, hns, hv, hr, runningState,
            resetAllState, callbackCount]

/-- Witness for C1 at the concrete scenario draft with a non-throwing
consumer callback. -/
theorem submit_valid_success_path_witness :
    (submitTrigger (some okConsumer) (idleState validDraft0)).2
        = [Effect.log validDraft0, Effect.toast successToast,
           Effect.callback validDraft0] ∧
    (submitTrigger (some okConsumer) (idleState validDraft0)).1.draft
        = emptyDraft := by
  have h := submit_valid_success_path (some okConsumer) (idleState validDraft0)
    rfl (by decide) (fun c hc => by cases hc; rfl)
  exact ⟨h.1, h.2.2.1⟩

/-- Claim C2: when the title is empty, the researcher is empty, or the
abstract is shorter than 10 characters, the submit trigger emits no
effect at all (no log, no toast, no callback), leaves the draft,
preview and file name untouched, and records exactly one message for
each violated field and none for the others. -/
theorem submit_invalid_blocked (cb : Option Consumer) (s : ComponentState)
    (hns : s.isSubmitting = false)
    (hinv : s.draft.title = "" ∨ s.draft.researcher = ""
              ∨ s.draft.abstract.length < 10) :
    (submitTrigger cb s).2 = [] ∧
    (submitTrigger cb s).1.draft = s.draft ∧
    (submitTrigger cb s).1.imagePreview = s.imagePreview ∧
    (submitTrigger cb s).1.fileName = s.fileName ∧
    (submitTrigger cb s).1.isSubmitting = false ∧
    (submitTrigger cb s).1.errors.title
        = (if s.draft.title = "" then some titleMsg else none) ∧
    (submitTrigger cb s).1.errors.abstract
        = (if s.draft.abstract.length < 10 then some abstractMsg else none) ∧
    (submitTrigger cb s).1.errors.researcher
        = (if s.draft.researcher = "" then some researcherMsg else none) := by
  have hvf : (formSchemaValidate s.draft).isValid = false := by
    rcases hinv with h | h | h
    · simp [formSchemaValidate, FieldErrors.isValid, h]
    · simp [formSchemaValidate, FieldErrors.isValid, h]
    · have hn : ¬ 10 ≤ s.draft.abstract.length := by omega
      simp [formSchemaValidate, FieldErrors.isValid, hn]
  refine ⟨by simp [submitTrigger, hns, hvf], by simp [submitTrigger, hns, hvf],
          by simp [submitTrigger, hns, hvf], by simp [submitTrigger, hns, hvf],
          by simp [submitTrigger, hns, hvf], ?_, ?_, ?_⟩
  · simp only [submitTrigger, hns, hvf]
    simp [formSchemaValidate, min_one_check_eq]
  · simp only [submitTrigger, hns, hvf]
    simp [formSchemaValidate, min_ten_check_eq]
  · simp only [submitTrigger, hns, hvf]
    simp [formSchemaValidate, min_one_check_eq]

/-- Witness for C2 at the concrete all-invalid draft of spec §8
(empty title, short abstract, empty researcher). -/
theorem submit_invalid_blocked_witness :
    (submitTrigger none (idleState ⟨"", "short", "", none, none⟩)).2 = [] ∧
    (submitTrigger none (idleState ⟨"", "short", "", none, none⟩)).1.errors.title
        = some titleMsg := by
  have h := submit_invalid_blocked none (idleState ⟨"", "short", "", none, none⟩)
    rfl (Or.inl rfl)
  exact ⟨h.1, by rw [h.2.2.2.2.2.1]; rfl⟩

/-- Claim C3: on a valid draft whose consumer callback throws, the catch
branch fires the failure toast (after the already-fired success toast
and the callback invocation) and performs no reset: draft,
`imagePreview` and `fileName` keep their pre-submit values. -/
theorem submit_callback_throw_preserves (c : Consumer) (s : ComponentState)
    (hns : s.isSubmitting = false)
    (hv : (formSchemaValidate s.draft).isValid = true)
    (e : String) (hthrow : c.run s.draft = Except.error e) :
    (submitTrigger (some c) s).2
        = [Effect.log s.draft, Effect.toast successToast,
           Effect.callback s.draft, Effect.toast failureToast] ∧
    (submitTrigger (some c) s).1.draft = s.draft ∧
    (submitTrigger (some c) s).1.imagePreview = s.imagePreview ∧
    (submitTrigger (some c) s).1.fileName = s.fileName := by
  simp [submitTrigger, handleFormSubmit, hns, hv, hthrow, runningState]

/-- Witness for C3 at the concrete scenario draft with an
always-throwing consumer callback. -/
theorem submit_callback_throw_preserves_witness :
    (submitTrigger (some throwingConsumer) (idleState validDraft0)).2
        = [Effect.log validDraft0, Effect.toast successToast,
           Effect.callback validDraft0, Effect.toast failureToast] ∧
    (submitTrigger (some throwingConsumer) (idleState validDraft0)).1.draft
        = validDraft0 := by
  have h := submit_callback_throw_preserves throwingConsumer
    (idleState validDraft0) rfl (by decide) "boom" rfl
  exact ⟨h.1, h.2.1⟩

/-- Claim C4 as stated is false: on a valid draft with a throwing
consumer callback a single submit attempt fires two toasts — the
success toast (emitted before the callback) and then the failure toast. -/
theorem two_toasts_on_throwing_callback :
    firedToasts (submitTrigger (some throwingConsumer)
        (idleState validDraft0)).2
      = [successToast, failureToast] ∧
    (firedToasts (submitTrigger (some throwingConsumer)
        (idleState validDraft0)).2).length = 2 := by
  constructor <;> rfl

/-- Claim C4 (amended): per submit attempt at most one toast of each
kind is fired — none when the attempt is blocked (invalid draft or a
submission already in flight), exactly the success toast on a
successful attempt, and the success toast followed by the failure toast
when the consumer callback throws. -/
theorem at_most_one_toast_of_each_kind (cb : Option Consumer)
    (s : ComponentState) :
    firedToasts (submitTrigger cb s).2 = [] ∨
    firedToasts (submitTrigger cb s).2 = [successToast] ∨
    firedToasts (submitTrigger cb s).2 = [successToast, failureToast] := by
  cases hs : s.isSubmitting with
  | true =>
      left
      simp [submitTrigger, hs, firedToasts]
  | false =>
      cases hv : (formSchemaValidate s.draft).isValid with
      | false =>
          left
          simp [submitTrigger, hs, hv, firedToasts]
      | true =>
          cases cb with
          | none =>
              right; left
              simp [submitTrigger, hs, hv, handleFormSubmit, firedToasts]
          | some c =>
              cases hr : c.run s.draft with
              | ok u =>
                  right; left
                  simp [submitTrigger, hs, hv, handleFormSubmit, hr, firedToasts]
              | error e =>
                  right; right
                  simp [submitTrigger, hs, hv, handleFormSubmit, hr, firedToasts]

/-- Claim C5: validation succeeds for every draft with non-empty title,
abstract of length at least 10 and non-empty researcher, whatever the
two optional file fields hold — the `instanceof(FileList).optional()`
checks never fail on a value the fields can hold. -/
theorem optional_files_never_block (t a r : String)
    (img rf : Option DomFileList)
    (ht : t ≠ "") (ha : 10 ≤ a.length) (hr : r ≠ "") :
    (formSchemaValidate ⟨t, a, r, img, rf⟩).isValid = true := by
  have h1 := one_le_length_of_ne_empty t ht
  have h2 := one_le_length_of_ne_empty r hr
  cases img <;> cases rf <;>
    simp [formSchemaValidate, FieldErrors.isValid, instanceOfFileListOptional,
          h1, h2, ha]

/-- Witness for C5 at a concrete draft carrying both an image file list
and an (empty) document file list. -/
theorem optional_files_never_block_witness :
    (("t" : String) ≠ "" ∧ 10 ≤ ("0123456789" : String).length
        ∧ ("r" : String) ≠ "") ∧
    (formSchemaValidate
        ⟨"t", "0123456789", "r", some [⟨"a.png", "xx"⟩], some []⟩).isValid
      = true :=
  ⟨⟨by decide, by decide, by decide⟩,
   optional_files_never_block "t" "0123456789" "r"
     (some [⟨"a.png", "xx"⟩]) (some []) (by decide) (by decide) (by decide)⟩

/-- Claim C6: the clear button, from any state, resets the draft (all
five fields), the error map, `imagePreview` and `fileName` to
empty/absent, runs no validation (the error map is cleared regardless
of the draft) and emits no effect — in particular no notification. -/
theorem clear_button_resets_all (s : ComponentState) :
    handleClearClick s
      = ({ draft := emptyDraft, errors := noErrors,
           isSubmitting := s.isSubmitting,
           imagePreview := none, fileName := none }, ([] : List Effect)) :=
  rfl

/-- Claim C7: a change event delivering no file (picker cancelled)
leaves both handlers inert: the state — previously set preview, file
name and draft file fields included — is returned unchanged and no
pending read is started. -/
theorem cancelled_picker_changes_nothing (files : Option DomFileList)
    (s : ComponentState) (h : files.bind List.head? = none) :
    handleImageChange files s = (s, none) ∧ handleFileChange files s = s := by
  constructor
  · simp [handleImageChange, h]
  · simp [handleFileChange, h]

/-- A state with a previously chosen image and document, used to witness
that a cancelled picker retains them. -/
def stateWithPrior : ComponentState :=
  ⟨⟨"t", "abcdefghij", "r", some [⟨"p.png", "img"⟩], some [⟨"d.pdf", "doc"⟩]⟩,
   noErrors, false, some "data:prior", some "d.pdf"⟩

/-- Witness for C7: an empty `FileList` (cancelled picker) on a state
with prior preview and file name changes nothing. -/
theorem cancelled_picker_changes_nothing_witness :
    handleImageChange (some []) stateWithPrior = (stateWithPrior, none) ∧
    handleFileChange (some []) stateWithPrior = stateWithPrior :=
  cancelled_picker_changes_nothing (some []) stateWithPrior rfl

/-- Claim C8: `isSubmitting` is true on the state the submit handler
runs on and stays true throughout the handler (the handler never writes
the flag); when a submit attempt starts from an idle state the flag is
false again after the trigger completes, whatever the outcome; and when
a submission is already in flight the trigger is disabled and does
nothing, so submit is not re-entrant. -/
theorem isSubmitting_protocol (cb : Option Consumer) (s : ComponentState) :
    (runningState s).isSubmitting = true ∧
    (∀ d, ((handleFormSubmit cb d (runningState s)).1).isSubmitting = true) ∧
    (s.isSubmitting = false → ((submitTrigger cb s).1).isSubmitting = false) ∧
    (s.isSubmitting = true → submitTrigger cb s = (s, [])) := by
  refine ⟨rfl, ?_, ?_, ?_⟩
  · intro d
    cases cb with
    | none => simp [handleFormSubmit, resetAllState, runningState]
    | some c =>
        cases hr : c.run d with
        | ok u => simp [handleFormSubmit, hr, resetAllState, runningState]
        | error e => simp [handleFormSubmit, hr, runningState]
  · intro h
    cases hv : (formSchemaValidate s.draft).isValid with
    | true => simp [submitTrigger, h, hv]
    | false => simp [submitTrigger, h, hv]
  · intro h
    simp [submitTrigger, h]

/-- A state with a submission already in flight. -/
def submittingState : ComponentState :=
  ⟨validDraft0, noErrors, true, none, none⟩

/-- Witness for C8: from a concrete idle state the flag ends false; on a
concrete in-flight state the trigger does nothing. -/
theorem isSubmitting_protocol_witness :
    ((submitTrigger none (idleState validDraft0)).1).isSubmitting = false ∧
    submitTrigger none submittingState = (submittingState, []) :=
  ⟨(isSubmitting_protocol none (idleState validDraft0)).2.2.1 rfl,
   (isSubmitting_protocol none submittingState).2.2.2 rfl⟩

/-- Claim C9: the full image-selection interaction (synchronous handler
plus asynchronous read completion) can change only `imagePreview` and
the draft's `image` field — `fileName`, `researchFile`, the three text
fields, the error map and the flag are untouched; and the document
handler can change only `fileName` and the draft's `researchFile`
field, leaving `imagePreview`, `image`, the text fields, the error map
and the flag untouched. -/
theorem file_handlers_frame (files : Option DomFileList) (r : String)
    (s : ComponentState) :
    ((completeImageRead r (handleImageChange files s).1).fileName
        = s.fileName ∧
     (completeImageRead r (handleImageChange files s).1).draft.researchFile
        = s.draft.researchFile ∧
     (completeImageRead r (handleImageChange files s).1).draft.title
        = s.draft.title ∧
     (completeImageRead r (handleImageChange files s).1).draft.abstract
        = s.draft.abstract ∧
     (completeImageRead r (handleImageChange files s).1).draft.researcher
        = s.draft.researcher ∧
     (completeImageRead r (handleImageChange files s).1).errors = s.errors ∧
     (completeImageRead r (handleImageChange files s).1).isSubmitting
        = s.isSubmitting) ∧
    ((handleFileChange files s).imagePreview = s.imagePreview ∧
     (handleFileChange files s).draft.image = s.draft.image ∧
     (handleFileChange files s).draft.title = s.draft.title ∧
     (handleFileChange files s).draft.abstract = s.draft.abstract ∧
     (handleFileChange files s).draft.researcher = s.draft.researcher ∧
     (handleFileChange files s).errors = s.errors ∧
     (handleFileChange files s).isSubmitting = s.isSubmitting) := by
  cases hf : files.bind List.head? with
  | none => simp [handleImageChange, handleFileChange, completeImageRead, hf]
  | some f => simp [handleImageChange, handleFileChange, completeImageRead, hf]

/-- Claim C10: selecting an image stores the file list in the draft's
`image` field synchronously, inside the change handler, while
`imagePreview` is untouched until the pending read completes (and set
to the read result then); consequently a draft with an image but no
preview submits successfully and the callback receives the image. -/
theorem image_selected_sync_field_async_preview (fl : DomFileList)
    (f : DomFile) (s : ComponentState) (r : String)
    (hf : fl.head? = some f) :
    ((handleImageChange (some fl) s).1.draft.image = some fl ∧
     (handleImageChange (some fl) s).1.imagePreview = s.imagePreview ∧
     (handleImageChange (some fl) s).2 = some f ∧
     (completeImageRead r (handleImageChange (some fl) s).1).imagePreview
        = some r) ∧
    (∀ (c : Consumer) (t a rs : String),
      t ≠ "" → 10 ≤ a.length → rs ≠ "" →
      c.run ⟨t, a, rs, some fl, none⟩ = Except.ok () →
      (submitTrigger (some c)
          ⟨⟨t, a, rs, some fl, none⟩, noErrors, false, none, none⟩).2
        = [Effect.log ⟨t, a, rs, some fl, none⟩, Effect.toast successToast,
           Effect.callback ⟨t, a, rs, some fl, none⟩]) := by
  constructor
  · simp [handleImageChange, completeImageRead, hf]
  · intro c t a rs ht ha hrs hok
    have hv : (formSchemaValidate ⟨t, a, rs, some fl, none⟩).isValid = true := by
      simp [formSchemaValidate, FieldErrors.isValid, instanceOfFileListOptional,
            one_le_length_of_ne_empty t ht, one_le_length_of_ne_empty rs hrs, ha]
    simp [submitTrigger, handleFormSubmit, hv, hok, runningState]

/-- A concrete image file. -/
def imageFile0 : DomFile := ⟨"photo.png", "img-bytes"⟩

/-- Witness for C10 at a concrete one-element file list: the image field
is set synchronously, the preview stays absent, and the draft carrying
the image but no preview submits with the callback receiving it. -/
theorem image_selected_sync_field_async_preview_witness :
    (handleImageChange (some [imageFile0]) (idleState emptyDraft)).1.draft.image
        = some [imageFile0] ∧
    (handleImageChange (some [imageFile0]) (idleState emptyDraft)).1.imagePreview
        = none ∧
    (submitTrigger (some okConsumer)
        ⟨⟨"t", "0123456789", "r", some [imageFile0], none⟩,
         noErrors, false, none, none⟩).2
      = [Effect.log ⟨"t", "0123456789", "r", some [imageFile0], none⟩,
         Effect.toast successToast,
         Effect.callback ⟨"t", "0123456789", "r", some [imageFile0], none⟩] := by
  have h := image_selected_sync_field_async_preview [imageFile0] imageFile0
    (idleState emptyDraft) "data:preview" rfl
  exact ⟨h.1.1, h.1.2.1,
    h.2 okConsumer "t" "0123456789" "r" (by decide) (by decide) (by decide) rfl⟩
